import Mathlib

/-!
Shallow embedding of the `finance_notifier` repository (Python) in Lean 4,
covering the parts of the code exercised by the claims of the specification:

* `src/app/utils.py`   : `mask_secret`
* `src/app/ntfy.py`    : `notify_ntfy`
* `src/app/market.py`  : `get_open_and_last`
* `src/app/state.py`   : `load_state`, `save_state`
* `src/app/core.py`    : `now_tz`, `is_market_hours`, `run_once`

Modelling conventions:
* Python floats are modelled as `ℚ` (the claims are about exact comparisons).
* Python dicts are modelled as association lists with Python `dict.get` /
  `d[k] = v` semantics (`dictGet` / `dictSet`).
* JSON (de)serialisation via `json.dumps` / `json.loads` is modelled at the
  value level: the file system maps a path to a parsed JSON value
  (`PyVal`), taking the dumps/loads round trip of the standard library as given;
  the own logic of the repository (existence check, `isinstance` check,
  exception fallbacks) is embedded faithfully.
* External calls (yfinance history, news pipeline, HTTP POST) are modelled
  as oracle functions supplied as parameters; each oracle result describes
  the outcome of one call (value returned or exception raised).
* Logging calls are modelled only where a claim observes them (the ntfy
  effect trace); elsewhere they are elided as pure no-ops.
-/

namespace FinanceNotifier

/-! ## `src/app/utils.py` -/

/-- Python slicing `s[:k]` on a string. -/
def pyTake (s : String) (k : Nat) : String :=
  String.mk (s.data.take k)

/-- Python slicing `s[-k:]` on a string (`k = 0` yields the whole string,
as in Python). -/
def pyTakeLast (s : String) (k : Nat) : String :=
  if k = 0 then s else String.mk (s.data.drop (s.data.length - k))

/-- Embeds `utils.mask_secret`: mask a sensitive string for logging.
`if not s: return "(unset)"`; if `len(s) > keep*2` keep the first and last
`keep` characters around an ellipsis; else `s[0] + "..." + s[-1]` when
`len(s) > 1`, otherwise `s` itself. -/
def mask_secret (s : String) (keep : Nat := 1) : String :=
  if s.isEmpty then "(unset)"
  else if s.data.length > keep * 2 then pyTake s keep ++ "..." ++ pyTakeLast s keep
  else if s.data.length > 1 then pyTake s 1 ++ "..." ++ pyTakeLast s 1
  else s

/-! ## `src/app/ntfy.py` -/

/-- Python `server.rstrip("/")`: drop all trailing slash characters. -/
def rstripSlash (s : String) : String :=
  String.mk ((s.data.reverse.dropWhile (fun c => c = '/')).reverse)

/-- Outcome of the `requests.post` call inside `notify_ntfy`:
either a response with an HTTP status code, or a raised
`requests.RequestException` (timeouts, connection errors, ...). -/
inductive PostOutcome
  | ok (status : Nat)
  | reqException
deriving DecidableEq, Repr

/-- Observable effects of one `notify_ntfy` invocation, in order.
`M` is the type of the message body (`str` in `ntfy.py`; the assembled
notification body when called from `core.run_once`). -/
inductive NtfyEffect (M : Type)
  | logDryRun (server maskedTopic title : String) (message : M)
      (click : Option String) (markdown : Bool)
  | post (url : String) (message : M) (headers : List (String × String))
  | logWarnPostFailed (url : String)
  | logDebugSuccess (url : String) (status : Nat)

/-- Embeds `ntfy.notify_ntfy`.  With `dry_run` it only logs (title, masked
topic, full message, click URL, markdown flag) and returns.  Otherwise it
builds the topic URL and headers and POSTs; `raise_for_status` errors
(status ≥ 400) and transport errors are `requests.RequestException`s and
are caught inside the function (logged, **not** re-raised), so the
function returns normally for every `PostOutcome`. -/
def notify_ntfy {M : Type} (postOutcome : PostOutcome)
    (server topic title : String) (message : M)
    (dry_run : Bool := false) (markdown : Bool := false)
    (click_url : Option String := Option.none) : List (NtfyEffect M) :=
  if dry_run then
    [NtfyEffect.logDryRun server (mask_secret topic 1) title message click_url markdown]
  else
    let url := rstripSlash server ++ "/" ++ topic
    let headers0 : List (String × String) := [("Title", title), ("Priority", "high")]
    let headers1 := if markdown then headers0 ++ [("Markdown", "yes")] else headers0
    let headers := match click_url with
      | Option.some u => headers1 ++ [("Click", u)]
      | Option.none => headers1
    match postOutcome with
    | PostOutcome.reqException =>
        [NtfyEffect.post url message headers, NtfyEffect.logWarnPostFailed url]
    | PostOutcome.ok status =>
        if 400 ≤ status then
          [NtfyEffect.post url message headers, NtfyEffect.logWarnPostFailed url]
        else
          [NtfyEffect.post url message headers, NtfyEffect.logDebugSuccess url status]

/-! ## `src/app/market.py` -/

/-- One row of the yfinance history DataFrame; only the "Open" and
"Close" columns are read by `get_open_and_last`. -/
structure Candle where
  Open : ℚ
  Close : ℚ
deriving DecidableEq, Repr

/-- Result of one `yf.Ticker(t).history(period, interval)` call:
either a raised exception, or a DataFrame with its rows and flags for
whether the "Open"/"Close" columns are present. -/
inductive HistRes
  | raise
  | frame (rows : List Candle) (hasOpen hasClose : Bool)

/-- The usability test of the code: `not df.empty and "Open" in df.columns and
"Close" in df.columns`; a raised exception is caught and treated like an
unusable frame (logged, fall through). -/
def usable : HistRes → Bool
  | HistRes.raise => false
  | HistRes.frame rows hasOpen hasClose => !rows.isEmpty && hasOpen && hasClose

/-- Intraday tier extraction: `open = df.iloc[0]["Open"]`,
`last = df.iloc[-1]["Close"]`; `Option.none` when the frame is unusable
(or the call raised). -/
def firstCandleResult : HistRes → Option (ℚ × ℚ)
  | HistRes.raise => Option.none
  | HistRes.frame rows hasOpen hasClose =>
    if hasOpen && hasClose then
      match rows.head?, rows.getLast? with
      | Option.some c0, Option.some cn => Option.some (c0.Open, cn.Close)
      | _, _ => Option.none
    else Option.none

/-- Daily tier extraction: `row = df.iloc[-1]`, returning
`(row["Open"], row["Close"])`; `Option.none` when unusable. -/
def lastCandleResult : HistRes → Option (ℚ × ℚ)
  | HistRes.raise => Option.none
  | HistRes.frame rows hasOpen hasClose =>
    if hasOpen && hasClose then
      match rows.getLast? with
      | Option.some cn => Option.some (cn.Open, cn.Close)
      | Option.none => Option.none
    else Option.none

/-- The six intraday history calls, in execution order: for each interval
in `("1m", "5m", "15m")`, attempts `0` and `1` (`for attempt in range(2)`). -/
def intradayPlan : List (String × Nat) :=
  [("1m", 0), ("1m", 1), ("5m", 0), ("5m", 1), ("15m", 0), ("15m", 1)]

/-- The error message of the final `RuntimeError` raised by
`get_open_and_last` when every tier failed. -/
def noDataMsg (ticker : String) : String :=
  "Could not retrieve price data for " ++ ticker

/-- Embeds `market.get_open_and_last`.  `hist period interval attempt` is
the oracle for the provider call `yf.Ticker(ticker).history(period=...,
interval=...)` at the given retry index.  Ladder: the six intraday calls
of `intradayPlan` (period "1d"), then one daily call (period "1d",
interval "1d"), then one 5-day call (period "5d", interval "1d"); if all
are unusable, fail with `noDataMsg ticker` (the `RuntimeError`). -/
def get_open_and_last (hist : String → String → Nat → HistRes)
    (ticker : String) : Except String (ℚ × ℚ) :=
  match intradayPlan.findSome?
      (fun ia => firstCandleResult (hist "1d" ia.1 ia.2)) with
  | Option.some p => Except.ok p
  | Option.none =>
    match lastCandleResult (hist "1d" "1d" 0) with
    | Option.some p => Except.ok p
    | Option.none =>
      match lastCandleResult (hist "5d" "1d" 0) with
      | Option.some p => Except.ok p
      | Option.none => Except.error (noDataMsg ticker)

/-! ## `src/app/state.py` -/

/-- A parsed JSON value as Python sees it after `json.loads`: a string, an
object (Python dict), or any other JSON value (number, list, bool, null),
which the state logic never inspects further. -/
inductive PyVal
  | str (s : String)
  | dict (entries : List (String × PyVal))
  | otherVal
deriving Repr

/-- Content of the state file as seen by `load_state`/`save_state`:
absent, unreadable-or-unparsable (read or `json.loads` raises), or a
parsed JSON value. -/
inductive FileCont
  | absent
  | unreadable
  | json (v : PyVal)

/-- Embeds `state.load_state`.  If the file exists and parses to a Python
dict, return its entries; a non-dict value or any read/parse exception
yields the empty record (both logged at warning level, never propagated). -/
def load_state (fs : String → FileCont) (path : String) : List (String × PyVal) :=
  match fs path with
  | FileCont.absent => []
  | FileCont.unreadable => []
  | FileCont.json v =>
    match v with
    | PyVal.dict entries => entries
    | _ => []

/-- Embeds `state.save_state`.  Serialises the full record and overwrites
the file; a write failure (`writable path = false`) is logged and leaves
the file system unchanged (not fatal to the cycle). -/
def save_state (fs : String → FileCont) (writable : String → Bool)
    (path : String) (state : List (String × PyVal)) : String → FileCont :=
  if writable path then
    fun p => if p = path then FileCont.json (PyVal.dict state) else fs p
  else fs

/-! ## `src/app/core.py` — market hours -/

/-- The fields of a timezone-aware "now" that `is_market_hours` reads:
`now.weekday()` (0 = Monday .. 6 = Sunday) and `now.hour` (0..23). -/
structure Now where
  weekday : Fin 7
  hour : Fin 24
deriving DecidableEq, Repr

/-- Embeds `core.now_tz`: current time in the configured timezone.
`resolve` models `ZoneInfo` lookup plus `datetime.now` (`Option.none`
when `ZoneInfo(tz)` raises for an invalid/unknown identifier); on
failure the code logs a warning and falls back to the current UTC time. -/
def now_tz (resolve : String → Option Now) (utcNow : Now) (tz : String) : Now :=
  match resolve tz with
  | Option.some n => n
  | Option.none => utcNow

/-- The `market_hours` config dict as read by `is_market_hours`; each
field is `Option`al because the code reads it with `dict.get` and a
default (`enabled` → True, `tz` → "UTC", `start_hour` → 8,
`end_hour` → 22, `days_mon_to_fri_only` → True). -/
structure MarketHoursCfg where
  enabled : Option Bool := Option.none
  tz : Option String := Option.none
  start_hour : Option Int := Option.none
  end_hour : Option Int := Option.none
  days_mon_to_fri_only : Option Bool := Option.none
deriving Repr

/-- Embeds `core.is_market_hours`: disabled → always True; weekend block
when `days_mon_to_fri_only` and `weekday > 4`; otherwise inside the
half-open hour window `start_hour <= now.hour < end_hour`. -/
def is_market_hours (resolve : String → Option Now) (utcNow : Now)
    (cfg_mh : MarketHoursCfg) : Bool :=
  if !(cfg_mh.enabled.getD true) then true
  else
    let now := now_tz resolve utcNow (cfg_mh.tz.getD "UTC")
    if cfg_mh.days_mon_to_fri_only.getD true && decide (4 < now.weekday.val) then false
    else
      let start_hour := cfg_mh.start_hour.getD 8
      let end_hour := cfg_mh.end_hour.getD 22
      if !(decide (start_hour ≤ (now.hour.val : Int) ∧ (now.hour.val : Int) < end_hour)) then
        false
      else true

/-! ## `src/app/core.py` — `run_once` -/

/-- The `test` config dict as read by `run_once`; fields read with
`dict.get` (`enabled` → falsy when absent, `bypass_market_hours` → False,
`force_delta_pct` → None, `dry_run` → False). -/
structure TestCfg where
  enabled : Option Bool := Option.none
  bypass_market_hours : Option Bool := Option.none
  force_delta_pct : Option ℚ := Option.none
  dry_run : Option Bool := Option.none
deriving Repr

/-- The `news` config dict as read by `run_once` (defaults per
`dict.get`: `enabled` → False, `limit` → 2, `lookback_hours` → 12,
`lang` → "de", `country` → "DE"). -/
structure NewsCfg where
  enabled : Option Bool := Option.none
  limit : Option Nat := Option.none
  lookback_hours : Option Nat := Option.none
  lang : Option String := Option.none
  country : Option String := Option.none
deriving Repr

/-- The components of the notification body assembled by `run_once`
(`body_lines`): arrow by sign of delta, symbol, delta %, open, last,
optional headline block.  String rendering of the f-strings is kept
structural since no claim inspects the rendered text. -/
structure Body where
  arrowUp : Bool
  symbol : String
  delta_pct : ℚ
  open_p : ℚ
  last_p : ℚ
  headlines : String
deriving Repr

/-- The Python exception that can escape `run_once`:
`news_cfg.get(...)` raises `AttributeError` when `news_cfg` is `None`. -/
inductive PyErr
  | attributeError
deriving DecidableEq, Repr

/-- Per-ticker outcomes of the external calls made inside the loop body of
`run_once`: `fetch` is the result of `get_open_and_last` (exception or
`(open, last)`), `news` the result of the news pipeline
(`auto_keywords` → `build_query` → `fetch_headlines` → `filter_titles` →
`_format_headlines`, any exception collapsing to `Except.error`), and
`post` the HTTP outcome of the `requests.post` inside `notify_ntfy`. -/
structure Env where
  fetch : String → Except Unit (ℚ × ℚ)
  news : String → Except Unit String
  post : String → PostOutcome

/-- Events of one cycle, in order: a price fetch attempt for a symbol, a
news-pipeline call, or a `notify_ntfy` invocation with its effects. -/
inductive TickEv
  | fetch (symbol : String)
  | newsFetch (symbol : String)
  | notify (symbol : String) (effects : List (NtfyEffect Body))

/-- Python `state.get(symbol)` on the in-memory dict. -/
def dictGet (d : List (String × PyVal)) (k : String) : Option PyVal :=
  d.lookup k

/-- Python equality `state.get(symbol) == direction` where `direction` is
a `str`: true iff the value is present, is a string, and equals it (a
missing key gives `None`, and `None`/dict/number values never equal a
`str`). -/
def pyEqStr : Option PyVal → String → Bool
  | Option.some (PyVal.str s), t => s = t
  | _, _ => false

/-- Python `state[symbol] = v`: replace in place when the key exists,
else append. -/
def dictSet (d : List (String × PyVal)) (k : String) (v : PyVal) :
    List (String × PyVal) :=
  if d.any (fun kv => kv.1 = k) then
    d.map (fun kv => if kv.1 = k then (k, v) else kv)
  else d ++ [(k, v)]

/-- The test override of the delta (`run_once` lines 321–322): when test
mode is enabled and `force_delta_pct` is not None, the forced literal
replaces the fetched delta. -/
def effectiveDelta (test_cfg : TestCfg) (delta0 : ℚ) : ℚ :=
  if test_cfg.enabled.getD false && test_cfg.force_delta_pct.isSome then
    test_cfg.force_delta_pct.getD 0
  else delta0

/-- The threshold decision of `run_once` line 324:
`"up" if delta_pct >= threshold_pct else "down" if delta_pct <=
-threshold_pct else "none"`. -/
def direction (delta_pct threshold_pct : ℚ) : String :=
  if delta_pct ≥ threshold_pct then "up"
  else if delta_pct ≤ -threshold_pct then "down"
  else "none"

/-- One iteration of the ticker loop in `run_once` (lines 311–391).
Returns the updated in-memory state and the events of this iteration, or
the escaping `AttributeError` when `news_cfg` is `None` and the alert
path reaches `news_cfg.get("enabled", False)`.

Fidelity notes:
* the delta computation sits inside the same `try` as the price fetch, so
  `open_p = 0` (Python `ZeroDivisionError`) is caught and skips the
  ticker like a fetch failure;
* `notify_ntfy` catches `requests.RequestException` internally and
  returns normally, so the `except` around the notify call never fires
  for an HTTP failure and `state[symbol] = direction` runs regardless of
  the POST outcome. -/
def processTicker (threshold_pct : ℚ) (ntfy_server ntfy_topic : String)
    (test_cfg : TestCfg) (news_cfg : Option NewsCfg) (env : Env)
    (state : List (String × PyVal)) (symbol : String) :
    Except PyErr (List (String × PyVal) × List TickEv) :=
  match env.fetch symbol with
  | Except.error _ => Except.ok (state, [TickEv.fetch symbol])
  | Except.ok (open_p, last_p) =>
    if open_p = 0 then Except.ok (state, [TickEv.fetch symbol])
    else
      let delta_pct := effectiveDelta test_cfg ((last_p - open_p) / open_p * 100)
      let dir := direction delta_pct threshold_pct
      if dir = "none" then Except.ok (state, [TickEv.fetch symbol])
      else if pyEqStr (dictGet state symbol) dir then
        Except.ok (state, [TickEv.fetch symbol])
      else
        match news_cfg with
        | Option.none => Except.error PyErr.attributeError
        | Option.some ncfg =>
          let newsEvs : List TickEv :=
            if ncfg.enabled.getD false then [TickEv.newsFetch symbol] else []
          let headlines_text : String :=
            if ncfg.enabled.getD false then
              match env.news symbol with
              | Except.ok s => s
              | Except.error _ => ""
            else ""
          let body : Body :=
            { arrowUp := if delta_pct ≥ 0 then true else false, symbol := symbol,
              delta_pct := delta_pct, open_p := open_p, last_p := last_p,
              headlines := headlines_text }
          let effs := notify_ntfy (env.post symbol) ntfy_server ntfy_topic
            ("Stock Alert: " ++ symbol) body (test_cfg.dry_run.getD false) true
            (Option.some ("https://finance.yahoo.com/quote/" ++ symbol))
          Except.ok (dictSet state symbol (PyVal.str dir),
            [TickEv.fetch symbol] ++ newsEvs ++ [TickEv.notify symbol effs])

/-- The ticker loop of `run_once`: sequential, an uncaught exception in
one iteration unwinds the whole loop (and the cycle). -/
def runLoop (threshold_pct : ℚ) (ntfy_server ntfy_topic : String)
    (test_cfg : TestCfg) (news_cfg : Option NewsCfg) (env : Env)
    (state : List (String × PyVal)) :
    List String → Except PyErr (List (String × PyVal) × List TickEv)
  | [] => Except.ok (state, [])
  | symbol :: rest =>
    match processTicker threshold_pct ntfy_server ntfy_topic test_cfg news_cfg env
        state symbol with
    | Except.error e => Except.error e
    | Except.ok (state1, evs) =>
      match runLoop threshold_pct ntfy_server ntfy_topic test_cfg news_cfg env
          state1 rest with
      | Except.error e => Except.error e
      | Except.ok (state2, evsRest) => Except.ok (state2, evs ++ evsRest)

/-- Observable outcome of one `run_once` cycle: whether the state file
was read, the ordered per-ticker events, and the record handed to
`save_state` (`Option.none` when the cycle exited at the gate without
touching the state). -/
structure RunResult where
  stateLoaded : Bool
  events : List TickEv
  saved : Option (List (String × PyVal))

/-- Embeds `core.run_once`.  Gate (lines 300–303): only when test mode is
enabled **and** `bypass_market_hours` is false does the code consult
`is_market_hours`; if that returns false the cycle returns immediately
(state neither read nor written, no ticker processed).  Otherwise: load
state, run the ticker loop, save state.  An exception escaping the loop
(`AttributeError` on `news_cfg = None`) propagates out of `run_once`
before `save_state` is reached. -/
def run_once (tickers : List String) (threshold_pct : ℚ)
    (ntfy_server ntfy_topic : String)
    (state_fs : String → FileCont) (state_file : String)
    (market_hours_cfg : MarketHoursCfg) (test_cfg : TestCfg)
    (news_cfg : Option NewsCfg)
    (resolve : String → Option Now) (utcNow : Now) (env : Env) :
    Except PyErr RunResult :=
  if test_cfg.enabled.getD false && !(test_cfg.bypass_market_hours.getD false)
      && !(is_market_hours resolve utcNow market_hours_cfg) then
    Except.ok { stateLoaded := false, events := [], saved := Option.none }
  else
    let state0 := load_state state_fs state_file
    match runLoop threshold_pct ntfy_server ntfy_topic test_cfg news_cfg env
        state0 tickers with
    | Except.error e => Except.error e
    | Except.ok (stateF, evs) =>
      Except.ok { stateLoaded := true, events := evs, saved := Option.some stateF }

/-! ## Concrete fixtures used by the cycle-level theorems -/

/-- A Wednesday at 23:00 — a weekday outside the configured 8–22 window. -/
def lateWednesday : Now := ⟨(2 : Fin 7), (23 : Fin 24)⟩

/-- A Wednesday at 10:00 — a weekday inside the configured 8–22 window. -/
def midWednesday : Now := ⟨(2 : Fin 7), (10 : Fin 24)⟩

/-- Timezone resolver pinning every identifier to `lateWednesday`. -/
def lateResolve : String → Option Now := fun _ => Option.some lateWednesday

/-- Timezone resolver pinning every identifier to `midWednesday`. -/
def midResolve : String → Option Now := fun _ => Option.some midWednesday

/-- The default production market-hours config of the repository (gating
enabled, Berlin time, hours 8–22, weekdays only). -/
def mhEnabled : MarketHoursCfg :=
  { enabled := Option.some true, tz := Option.some "Europe/Berlin",
    start_hour := Option.some 8, end_hour := Option.some 22,
    days_mon_to_fri_only := Option.some true }

/-- A production test config: test mode disabled (the default
`{"enabled": False, ...}`). -/
def testDisabled : TestCfg := { enabled := Option.some false }

/-- News enrichment disabled. -/
def newsOff : NewsCfg := { enabled := Option.some false }

/-- Oracles for a cycle where every ticker opens at 100 and last trades
at 104 (a +4% move), news succeeds with no headlines, and the
notification POST succeeds with HTTP 200. -/
def envPostOk : Env :=
  { fetch := fun _ => Except.ok (100, 104), news := fun _ => Except.ok "",
    post := fun _ => PostOutcome.ok 200 }

/-- Same cycle, but the notification POST raises
`requests.RequestException` (delivery fails). -/
def envPostFail : Env :=
  { fetch := fun _ => Except.ok (100, 104), news := fun _ => Except.ok "",
    post := fun _ => PostOutcome.reqException }

/-- An empty state directory: no state file exists yet. -/
def emptyFs : String → FileCont := fun _ => FileCont.absent

/-! ## Theorems -/

/-- C10: in the threshold decision of `run_once` (the `direction` expression of
core.py line 324) the Up branch takes priority when both closed
inequalities hold: with `threshold_pct = 0` and delta exactly `0` the
computed direction is `"up"` (not `"down"`), and for `threshold_pct = 0`
the direction is never `"none"` — every delta classifies as `"up"` or
`"down"`. -/
theorem direction_up_priority_at_zero :
    direction 0 0 = "up" ∧
    ∀ d : ℚ, direction d 0 = "up" ∨ direction d 0 = "down" := by
  refine ⟨by decide, fun d => ?_⟩
  unfold direction
  by_cases h : d ≥ 0
  · rw [if_pos h]; left; rfl
  · rw [if_neg h, if_pos (by push_neg at h; simpa using h.le)]; right; rfl

/-- C3 counterexample: the claim "direction is Down iff `d <= -t`" fails
on the code at threshold `t = 0` (which satisfies `t ≥ 0`) and delta
`d = 0`: there `d ≤ -t` holds, yet the computed direction is `"up"`, not
`"down"`. -/
theorem direction_down_iff_fails_at_zero :
    (0:ℚ) ≤ 0 ∧ ¬ ((direction 0 0 = "down") ↔ ((0:ℚ) ≤ -(0:ℚ))) := by
  constructor
  · exact le_refl 0
  · intro h
    have := h.mpr (by norm_num)
    exact absurd this (by decide)

/-- C3 amended: for every threshold `t ≥ 0` and delta `d`, the direction
computed by `run_once` is `"up"` iff `d ≥ t`, `"down"` iff `d ≤ -t` and
additionally `d < t` (the Up branch wins when both closed inequalities
hold, which happens only at `t = 0, d = 0`), and `"none"` otherwise; the
boundary comparisons are closed. -/
theorem direction_trichotomy (t d : ℚ) (_ht : 0 ≤ t) :
    (direction d t = "up" ↔ d ≥ t) ∧
    (direction d t = "down" ↔ (d ≤ -t ∧ d < t)) ∧
    (direction d t = "none" ↔ (¬ d ≥ t ∧ ¬ d ≤ -t)) := by
  unfold direction
  by_cases h1 : d ≥ t
  · rw [if_pos h1]
    refine ⟨⟨fun _ => h1, fun _ => rfl⟩, ?_, ?_⟩
    · constructor
      · intro h; exact absurd h (by decide)
      · rintro ⟨-, hlt⟩; exact absurd h1 (not_le.mpr hlt)
    · constructor
      · intro h; exact absurd h (by decide)
      · rintro ⟨hno, -⟩; exact absurd h1 hno
  · rw [if_neg h1]
    by_cases h2 : d ≤ -t
    · rw [if_pos h2]
      refine ⟨?_, ?_, ?_⟩
      · constructor
        · intro h; exact absurd h (by decide)
        · intro h; exact absurd h h1
      · exact ⟨fun _ => ⟨h2, not_le.mp h1⟩, fun _ => rfl⟩
      · constructor
        · intro h; exact absurd h (by decide)
        · rintro ⟨-, hno⟩; exact absurd h2 hno
    · rw [if_neg h2]
      refine ⟨?_, ?_, ?_⟩
      · constructor
        · intro h; exact absurd h (by decide)
        · intro h; exact absurd h h1
      · constructor
        · intro h; exact absurd h (by decide)
        · rintro ⟨hle, -⟩; exact absurd hle h2
      · exact ⟨fun _ => ⟨h1, h2⟩, fun _ => rfl⟩

/-- Witness for `direction_trichotomy` at `t = 3`, `d = 4`. -/
theorem direction_trichotomy_witness :
    (0:ℚ) ≤ 3 ∧
    ((direction 4 3 = "up" ↔ (4:ℚ) ≥ 3) ∧
     (direction 4 3 = "down" ↔ ((4:ℚ) ≤ -3 ∧ (4:ℚ) < 3)) ∧
     (direction 4 3 = "none" ↔ (¬ (4:ℚ) ≥ 3 ∧ ¬ (4:ℚ) ≤ -3))) :=
  ⟨by norm_num, direction_trichotomy 3 4 (by norm_num)⟩

/-- C7: for every market-hours config and every now (where `n` is the
time resolved in the configured timezone): `is_market_hours` returns true
whenever `enabled` is false; when weekdays-only is set and the resolved
weekday is Saturday (5) or Sunday (6) it returns false regardless of
hour; otherwise it returns true iff
`start_hour ≤ current hour < end_hour` (half-open, hour granularity);
and an unresolvable timezone identifier falls back to the UTC now
(`now_tz` is total: the `ZoneInfo` failure is caught and logged). -/
theorem is_market_hours_spec (resolve : String → Option Now) (utcNow : Now)
    (cfg : MarketHoursCfg) (n : Now)
    (hn : n = now_tz resolve utcNow (cfg.tz.getD "UTC")) :
    (cfg.enabled = Option.some false → is_market_hours resolve utcNow cfg = true) ∧
    (resolve (cfg.tz.getD "UTC") = Option.none → n = utcNow) ∧
    (cfg.enabled.getD true = true →
      (cfg.days_mon_to_fri_only.getD true = true →
        (n.weekday.val = 5 ∨ n.weekday.val = 6) →
        is_market_hours resolve utcNow cfg = false) ∧
      ((cfg.days_mon_to_fri_only.getD true = true → n.weekday.val < 5) →
        (is_market_hours resolve utcNow cfg = true ↔
          cfg.start_hour.getD 8 ≤ (n.hour.val : Int) ∧
          (n.hour.val : Int) < cfg.end_hour.getD 22))) := by
  refine ⟨?_, ?_, ?_⟩
  · intro h
    simp [is_market_hours, h]
  · intro h
    rw [hn, now_tz, h]
  · intro hen
    constructor
    · intro hwd hweekend
      have h45 : decide (4 < n.weekday.val) = true := by
        rcases hweekend with h | h <;> simp [h]
      rw [is_market_hours, if_neg (by simp [hen]), ← hn]
      rw [if_pos (by rw [hwd, h45]; rfl)]
    · intro hno
      have h45 : (cfg.days_mon_to_fri_only.getD true && decide (4 < n.weekday.val)) = false := by
        by_cases hwd : cfg.days_mon_to_fri_only.getD true
        · have := hno hwd
          simp [hwd, Nat.not_lt.mpr (Nat.lt_succ_iff.mp this)]
        · simp [Bool.eq_false_iff.mpr hwd]
      rw [is_market_hours, if_neg (by simp [hen]), ← hn, if_neg (by rw [h45]; exact Bool.false_ne_true)]
      by_cases hw : cfg.start_hour.getD 8 ≤ (n.hour.val : Int) ∧ (n.hour.val : Int) < cfg.end_hour.getD 22
      · simp [hw]
      · simp [hw]

/-- Witness for `is_market_hours_spec`: a Saturday 10:00 now with
weekdays-only set yields `false` regardless of the hour being inside the
window. -/
theorem is_market_hours_spec_witness :
    is_market_hours (fun _ => Option.some ⟨(5 : Fin 7), (10 : Fin 24)⟩)
      ⟨(0 : Fin 7), (0 : Fin 24)⟩
      { enabled := Option.some true, tz := Option.some "Europe/Berlin",
        start_hour := Option.some 8, end_hour := Option.some 22,
        days_mon_to_fri_only := Option.some true } = false :=
  ((is_market_hours_spec (fun _ => Option.some ⟨(5 : Fin 7), (10 : Fin 24)⟩)
      ⟨(0 : Fin 7), (0 : Fin 24)⟩
      { enabled := Option.some true, tz := Option.some "Europe/Berlin",
        start_hour := Option.some 8, end_hour := Option.some 22,
        days_mon_to_fri_only := Option.some true }
      ⟨(5 : Fin 7), (10 : Fin 24)⟩ rfl).2.2 rfl).1 rfl (Or.inl rfl)

/-- C8: with `dry_run = true`, `notify_ntfy` performs no network I/O for
any input — its effect trace is exactly one log line carrying the title,
the masked topic, and the full message body, and contains no HTTP POST
effect. -/
theorem notify_ntfy_dry_run {M : Type} (postOutcome : PostOutcome)
    (server topic title : String) (message : M) (markdown : Bool)
    (click_url : Option String) :
    notify_ntfy postOutcome server topic title message true markdown click_url =
      [NtfyEffect.logDryRun server (mask_secret topic 1) title message
        click_url markdown] ∧
    ∀ url msg headers,
      NtfyEffect.post url msg headers ∉
        notify_ntfy postOutcome server topic title message true markdown click_url := by
  constructor
  · rfl
  · intro url msg headers h
    simp only [notify_ntfy, if_pos] at h
    simp at h

/-- Witness for `notify_ntfy_dry_run` at concrete string inputs. -/
theorem notify_ntfy_dry_run_witness :
    notify_ntfy PostOutcome.reqException "https://ntfy.sh" "sekret" "Stock Alert: AAPL"
      "body" true true (Option.some "https://finance.yahoo.com/quote/AAPL") =
      [NtfyEffect.logDryRun "https://ntfy.sh" (mask_secret "sekret" 1) "Stock Alert: AAPL"
        "body" (Option.some "https://finance.yahoo.com/quote/AAPL") true] :=
  (notify_ntfy_dry_run PostOutcome.reqException "https://ntfy.sh" "sekret"
    "Stock Alert: AAPL" "body" true
    (Option.some "https://finance.yahoo.com/quote/AAPL")).1

/-- Helper for C9: looking up a key in a record whose values were wrapped
by `PyVal.str` gives the wrapped original lookup. -/
theorem lookup_map_str (record : List (String × String)) (k : String) :
    (record.map (fun kv => (kv.1, PyVal.str kv.2))).lookup k
      = (record.lookup k).map PyVal.str := by
  induction record with
  | nil => rfl
  | cons a tl ih =>
    rcases a with ⟨k', v'⟩
    by_cases h : k = k'
    · simp [List.lookup, h]
    · simp only [List.map, List.lookup]
      rw [show (k == k') = false from beq_eq_false_iff_ne.mpr h]
      exact ih

/-- C9: for every string-to-string mapping `record` and every writable
path, `save_state` followed by `load_state` returns a mapping with
exactly the same key set and the same value (as a JSON string) for every
key; in fact the loaded entry list is exactly the saved one. -/
theorem save_then_load_roundtrip (fs : String → FileCont)
    (writable : String → Bool) (path : String)
    (record : List (String × String)) (hw : writable path = true) :
    load_state (save_state fs writable path
        (record.map (fun kv => (kv.1, PyVal.str kv.2)))) path =
      record.map (fun kv => (kv.1, PyVal.str kv.2)) ∧
    (load_state (save_state fs writable path
        (record.map (fun kv => (kv.1, PyVal.str kv.2)))) path).map Prod.fst =
      record.map Prod.fst ∧
    ∀ k, (load_state (save_state fs writable path
        (record.map (fun kv => (kv.1, PyVal.str kv.2)))) path).lookup k =
      (record.lookup k).map PyVal.str := by
  have hload : load_state (save_state fs writable path
      (record.map (fun kv => (kv.1, PyVal.str kv.2)))) path =
      record.map (fun kv => (kv.1, PyVal.str kv.2)) := by
    rw [save_state, if_pos hw, load_state]
    simp
  refine ⟨hload, ?_, ?_⟩
  · rw [hload]
    simp
  · intro k
    rw [hload]
    exact lookup_map_str record k

/-- Witness for `save_then_load_roundtrip` at a concrete file system,
path and record. -/
theorem save_then_load_roundtrip_witness :
    load_state (save_state (fun _ => FileCont.absent) (fun _ => true)
        "alert_state.json" [("AAPL", PyVal.str "up")]) "alert_state.json" =
      [("AAPL", PyVal.str "up")] :=
  (save_then_load_roundtrip (fun _ => FileCont.absent) (fun _ => true)
    "alert_state.json" [("AAPL", "up")] rfl).1

/-- Helper for C5: the intraday extractor yields nothing exactly when the
frame is unusable (raised, empty, or missing a column). -/
theorem firstCandleResult_none_iff (r : HistRes) :
    firstCandleResult r = Option.none ↔ usable r = false := by
  cases r with
  | raise => simp [firstCandleResult, usable]
  | frame rows hO hC =>
    cases hO <;> cases hC <;> simp [firstCandleResult, usable] <;>
      cases rows with
      | nil => simp
      | cons a as =>
        have hs : (a :: as).getLast?.isSome := by
          rw [List.getLast?_isSome]; exact List.cons_ne_nil a as
        rcases Option.isSome_iff_exists.mp hs with ⟨c, hc⟩
        simp [hc]

/-- Helper for C5: the daily extractor yields nothing exactly when the
frame is unusable. -/
theorem lastCandleResult_none_iff (r : HistRes) :
    lastCandleResult r = Option.none ↔ usable r = false := by
  cases r with
  | raise => simp [lastCandleResult, usable]
  | frame rows hO hC =>
    cases hO <;> cases hC <;> simp [lastCandleResult, usable] <;>
      cases rows with
      | nil => simp
      | cons a as =>
        have hs : (a :: as).getLast?.isSome := by
          rw [List.getLast?_isSome]; exact List.cons_ne_nil a as
        rcases Option.isSome_iff_exists.mp hs with ⟨c, hc⟩
        simp [hc]

/-- C5: the price ladder of `get_open_and_last`.  (1) When the six
intraday calls (1m, 5m, 15m, two tries each, in that order per
`intradayPlan`), the single 1-day call and the 5-day call are all
unusable, the fetch fails with the no-data error carrying the ticker
symbol.  (2) Conversely the fetch fails only with that error and only
when every tier was exhausted.  (3) If every intraday call is unusable
but the 1-day fetch yields a valid frame, the fetch returns the open and
close of the most recent candle of that frame without failing.  (4) If the 1-day
tier is also unusable but the 5-day fetch yields a valid frame, the
fetch returns the open and close of the most recent day. -/
theorem get_open_and_last_ladder (hist : String → String → Nat → HistRes)
    (ticker : String) :
    ((∀ ia ∈ intradayPlan, usable (hist "1d" ia.1 ia.2) = false) →
      usable (hist "1d" "1d" 0) = false → usable (hist "5d" "1d" 0) = false →
      get_open_and_last hist ticker = Except.error (noDataMsg ticker)) ∧
    (∀ e, get_open_and_last hist ticker = Except.error e →
      e = noDataMsg ticker ∧
      (∀ ia ∈ intradayPlan, usable (hist "1d" ia.1 ia.2) = false) ∧
      usable (hist "1d" "1d" 0) = false ∧ usable (hist "5d" "1d" 0) = false) ∧
    ((∀ ia ∈ intradayPlan, usable (hist "1d" ia.1 ia.2) = false) →
      ∀ rows c, hist "1d" "1d" 0 = HistRes.frame rows true true →
        rows.getLast? = Option.some c →
        get_open_and_last hist ticker = Except.ok (c.Open, c.Close)) ∧
    ((∀ ia ∈ intradayPlan, usable (hist "1d" ia.1 ia.2) = false) →
      usable (hist "1d" "1d" 0) = false →
      ∀ rows c, hist "5d" "1d" 0 = HistRes.frame rows true true →
        rows.getLast? = Option.some c →
        get_open_and_last hist ticker = Except.ok (c.Open, c.Close)) := by
  have hIntra : ∀ (h : ∀ ia ∈ intradayPlan, usable (hist "1d" ia.1 ia.2) = false),
      intradayPlan.findSome? (fun ia => firstCandleResult (hist "1d" ia.1 ia.2)) =
        Option.none :=
    fun h => List.findSome?_eq_none_iff.mpr
      (fun ia hia => (firstCandleResult_none_iff _).mpr (h ia hia))
  refine ⟨?_, ?_, ?_, ?_⟩
  · intro h0 h1 h5
    rw [get_open_and_last, hIntra h0, (lastCandleResult_none_iff _).mpr h1,
      (lastCandleResult_none_iff _).mpr h5]
  · intro e he
    rw [get_open_and_last] at he
    cases hfs : intradayPlan.findSome?
        (fun ia => firstCandleResult (hist "1d" ia.1 ia.2)) with
    | some p => rw [hfs] at he; cases he
    | none =>
      rw [hfs] at he
      cases h1 : lastCandleResult (hist "1d" "1d" 0) with
      | some p => rw [h1] at he; cases he
      | none =>
        rw [h1] at he
        cases h5 : lastCandleResult (hist "5d" "1d" 0) with
        | some p => rw [h5] at he; cases he
        | none =>
          rw [h5] at he
          refine ⟨(Except.error.injEq _ _ ▸ he.symm : _), ?_, ?_, ?_⟩
          · intro ia hia
            exact (firstCandleResult_none_iff _).mp
              (List.findSome?_eq_none_iff.mp hfs ia hia)
          · exact (lastCandleResult_none_iff _).mp h1
          · exact (lastCandleResult_none_iff _).mp h5
  · intro h0 rows c h1d hlast
    rw [get_open_and_last, hIntra h0]
    have : lastCandleResult (hist "1d" "1d" 0) = Option.some (c.Open, c.Close) := by
      rw [h1d, lastCandleResult]
      simp [hlast]
    rw [this]
  · intro h0 h1 rows c h5d hlast
    rw [get_open_and_last, hIntra h0, (lastCandleResult_none_iff _).mpr h1]
    have : lastCandleResult (hist "5d" "1d" 0) = Option.some (c.Open, c.Close) := by
      rw [h5d, lastCandleResult]
      simp [hlast]
    rw [this]

/-- Witness for `get_open_and_last_ladder`: a provider that raises on
every call makes the fetch fail with the no-data error carrying the
ticker. -/
theorem get_open_and_last_ladder_witness :
    get_open_and_last (fun _ _ _ => HistRes.raise) "AAPL" =
      Except.error (noDataMsg "AAPL") :=
  (get_open_and_last_ladder (fun _ _ _ => HistRes.raise) "AAPL").1
    (fun _ _ => rfl) rfl rfl

/-- C4: the debounce rule of the ticker loop.  For a ticker whose fetch
succeeded (with nonzero open) and whose computed direction `d` is not
`"none"`, the iteration is suppressed — no news enrichment, no
notification, state unchanged, only the fetch event — **iff** the loaded
state maps the ticker to that same direction.  When it does not (no
prior alert, or a reversal to the opposite direction), the iteration
makes exactly one `notify_ntfy` call and updates the in-memory record to
the new direction. -/
theorem processTicker_debounce (t : ℚ) (server topic : String)
    (test : TestCfg) (ncfg : NewsCfg) (env : Env)
    (state : List (String × PyVal)) (symbol : String) (o l : ℚ)
    (hf : env.fetch symbol = Except.ok (o, l)) (ho : ¬ o = 0)
    (d : String) (hd : d = direction (effectiveDelta test ((l - o) / o * 100)) t)
    (hdn : ¬ d = "none") :
    (processTicker t server topic test (Option.some ncfg) env state symbol =
        Except.ok (state, [TickEv.fetch symbol]) ↔
      pyEqStr (dictGet state symbol) d = true) ∧
    (pyEqStr (dictGet state symbol) d = false →
      ∃ effs newsEvs,
        (newsEvs = [] ∨ newsEvs = [TickEv.newsFetch symbol]) ∧
        processTicker t server topic test (Option.some ncfg) env state symbol =
          Except.ok (dictSet state symbol (PyVal.str d),
            [TickEv.fetch symbol] ++ newsEvs ++ [TickEv.notify symbol effs])) := by
  have heval : processTicker t server topic test (Option.some ncfg) env state symbol =
      if pyEqStr (dictGet state symbol) d = true then
        Except.ok (state, [TickEv.fetch symbol])
      else
        Except.ok (dictSet state symbol (PyVal.str d),
          [TickEv.fetch symbol]
            ++ (if ncfg.enabled.getD false then [TickEv.newsFetch symbol] else [])
            ++ [TickEv.notify symbol (notify_ntfy (env.post symbol) server topic
                 ("Stock Alert: " ++ symbol)
                 { arrowUp := if effectiveDelta test ((l - o) / o * 100) ≥ 0 then
                       true else false,
                   symbol := symbol,
                   delta_pct := effectiveDelta test ((l - o) / o * 100),
                   open_p := o, last_p := l,
                   headlines := if ncfg.enabled.getD false then
                       (match env.news symbol with
                        | Except.ok s => s
                        | Except.error _ => "")
                     else "" }
                 (test.dry_run.getD false) true
                 (Option.some ("https://finance.yahoo.com/quote/" ++ symbol)))]) := by
    unfold processTicker
    rw [hf]
    try dsimp only
    rw [if_neg ho]
    try dsimp only
    rw [← hd, if_neg hdn]
    try rfl
  constructor
  · constructor
    · intro heq
      by_contra hsupp
      rw [Bool.not_eq_true] at hsupp
      rw [heval, if_neg (by rw [hsupp]; exact Bool.false_ne_true)] at heq
      rw [Except.ok.injEq] at heq
      have hev := congrArg Prod.snd heq
      simp at hev
    · intro hsupp
      rw [heval, if_pos hsupp]
  · intro hsupp
    refine ⟨notify_ntfy (env.post symbol) server topic ("Stock Alert: " ++ symbol)
        { arrowUp := if effectiveDelta test ((l - o) / o * 100) ≥ 0 then true else false,
          symbol := symbol, delta_pct := effectiveDelta test ((l - o) / o * 100),
          open_p := o, last_p := l,
          headlines := if ncfg.enabled.getD false then
              (match env.news symbol with
               | Except.ok s => s
               | Except.error _ => "")
            else "" }
        (test.dry_run.getD false) true
        (Option.some ("https://finance.yahoo.com/quote/" ++ symbol)),
      (if ncfg.enabled.getD false then [TickEv.newsFetch symbol] else []), ?_, ?_⟩
    · by_cases hne : ncfg.enabled.getD false
      · right; rw [if_pos hne]
      · left; rw [if_neg hne]
    · rw [heval, if_neg (by rw [hsupp]; exact Bool.false_ne_true)]

/-- Witness for `processTicker_debounce`: prior state `{AAPL: up}` and a
new cycle computing Up again (open 100, last 104, threshold 3) is
suppressed: state unchanged, only the fetch event. -/
theorem processTicker_debounce_witness :
    processTicker 3 "https://ntfy.sh" "sekret" {}
      (Option.some { enabled := Option.some false })
      ⟨fun _ => Except.ok (100, 104), fun _ => Except.ok "",
        fun _ => PostOutcome.ok 200⟩
      [("AAPL", PyVal.str "up")] "AAPL" =
      Except.ok ([("AAPL", PyVal.str "up")], [TickEv.fetch "AAPL"]) :=
  (processTicker_debounce 3 "https://ntfy.sh" "sekret" {}
    { enabled := Option.some false }
    ⟨fun _ => Except.ok (100, 104), fun _ => Except.ok "",
      fun _ => PostOutcome.ok 200⟩
    [("AAPL", PyVal.str "up")] "AAPL" 100 104 rfl (by norm_num)
    "up" (by norm_num [effectiveDelta, direction]) (by decide)).1.mpr rfl

/-- C1 (failing-input evaluation): with test mode disabled, market-hours
gating enabled and `now` a Wednesday 23:00 — outside the window, as the
first conjunct certifies — `run_once` nevertheless reads the state file,
processes the ticker, sends the notification and writes the state: the
gate at core.py line 300 consults `is_market_hours` only when
`test_cfg.get("enabled")` is truthy, so in production the market-hours
check is skipped entirely, contrary to the claim (and to the docstring of
the function itself, "Check market hours (with optional test bypass)"). -/
theorem run_once_gate_skipped_when_test_disabled :
    is_market_hours lateResolve lateWednesday mhEnabled = false ∧
    run_once ["AAPL"] 3 "s" "t" emptyFs "alert_state.json" mhEnabled
        testDisabled (Option.some newsOff) lateResolve lateWednesday envPostOk =
      Except.ok { stateLoaded := true,
                  events := [TickEv.fetch "AAPL",
                    TickEv.notify "AAPL"
                      [NtfyEffect.post (rstripSlash "s" ++ "/" ++ "t")
                        { arrowUp := true, symbol := "AAPL", delta_pct := 4,
                          open_p := 100, last_p := 104, headlines := "" }
                        [("Title", "Stock Alert: AAPL"), ("Priority", "high"),
                         ("Markdown", "yes"),
                         ("Click", "https://finance.yahoo.com/quote/AAPL")],
                       NtfyEffect.logDebugSuccess (rstripSlash "s" ++ "/" ++ "t") 200]],
                  saved := Option.some [("AAPL", PyVal.str "up")] } := by
  constructor
  · rfl
  · norm_num [run_once, runLoop, processTicker, effectiveDelta, direction,
      load_state, dictGet, dictSet, pyEqStr, notify_ntfy, testDisabled,
      mhEnabled, newsOff, envPostOk, emptyFs]
    rfl

/-- C2 (failing-input evaluation): a cycle in which the notification POST
raises `requests.RequestException` — the `logWarnPostFailed` effect in
the trace certifies that delivery failed — still ends with
`record["AAPL"] = "up"` in the saved state.  `notify_ntfy` catches
`requests.RequestException` internally (ntfy.py lines 85–86) and returns
normally, so the `except`/`continue` in `run_once` (lines 386–388) that
is supposed to skip the state update on delivery failure never fires for
a failed or errored HTTP POST, contrary to the claim. -/
theorem run_once_updates_state_on_failed_post :
    run_once ["AAPL"] 3 "s" "t" emptyFs "alert_state.json" mhEnabled
        testDisabled (Option.some newsOff) midResolve midWednesday envPostFail =
      Except.ok { stateLoaded := true,
                  events := [TickEv.fetch "AAPL",
                    TickEv.notify "AAPL"
                      [NtfyEffect.post (rstripSlash "s" ++ "/" ++ "t")
                        { arrowUp := true, symbol := "AAPL", delta_pct := 4,
                          open_p := 100, last_p := 104, headlines := "" }
                        [("Title", "Stock Alert: AAPL"), ("Priority", "high"),
                         ("Markdown", "yes"),
                         ("Click", "https://finance.yahoo.com/quote/AAPL")],
                       NtfyEffect.logWarnPostFailed (rstripSlash "s" ++ "/" ++ "t")]],
                  saved := Option.some [("AAPL", PyVal.str "up")] } := by
  norm_num [run_once, runLoop, processTicker, effectiveDelta, direction,
    load_state, dictGet, dictSet, pyEqStr, notify_ntfy, testDisabled,
    mhEnabled, newsOff, envPostFail, emptyFs]
  rfl

/-- C6 (failing-input evaluation): with `news_cfg = None` (a value the
signature `news_cfg: dict | None` admits), a ticker that reaches the
news step makes `news_cfg.get("enabled", False)` (core.py line 338,
outside any try block) raise `AttributeError`; the exception unwinds the
loop — the second ticker is never processed and the state file is never
written — and propagates out of `run_once`, contrary to the claim that
no per-ticker exception escapes for any value of the news
configuration. -/
theorem run_once_raises_on_none_news_cfg :
    run_once ["AAPL", "MSFT"] 3 "s" "t" emptyFs "alert_state.json" mhEnabled
        testDisabled Option.none midResolve midWednesday envPostOk =
      Except.error PyErr.attributeError := by
  norm_num [run_once, runLoop, processTicker, effectiveDelta, direction,
    load_state, dictGet, dictSet, pyEqStr, testDisabled, mhEnabled,
    envPostOk, emptyFs]
  rfl

end FinanceNotifier
